import Mathlib

/-
A verification development for the DiHydrogen core: a shallow embedding of
the GPU runtime device-binding logic (`src/gpu/rocm/runtime.cpp`) and of the
CPU tensor specialization (`include/h2/tensor/tensor_cpu.hpp`), together with
theorems checking the documented behavior against these definitions.

Machine integers from the C++ source are modelled as `Int`; C strings as
`String`; the process environment as a partial map from variable names to
values; fallible operations as `Except String`; process termination by the
fatal error path as `none` in an `Option` result.
-/

namespace H2

/-- The process environment: maps a variable name to its value when the
variable is set (`std::getenv`). -/
abbrev Env := String → Option String

/-- True for the characters C's `isspace` accepts in the "C" locale,
which `atoi` skips before parsing. -/
def isSpaceChar (c : Char) : Bool :=
  c = ' ' || c = '\t' || c = '\n' || c = '\x0b' || c = '\x0c' || c = '\r'

/-- The digit-accumulation loop of C `atoi`: consume decimal digits from the
front, stopping at the first non-digit. -/
def atoiDigits : List Char → Nat → Nat
  | [], acc => acc
  | c :: cs, acc =>
    if c.isDigit then atoiDigits cs (acc * 10 + (c.toNat - '0'.toNat)) else acc

/-- C `std::atoi`: skip leading whitespace, read an optional sign, then
decimal digits; an input with no digits parses as 0. -/
def atoi (s : String) : Int :=
  match s.data.dropWhile isSpaceChar with
  | '-' :: rest => -(atoiDigits rest 0 : Int)
  | '+' :: rest => (atoiDigits rest 0 : Int)
  | rest => (atoiDigits rest 0 : Int)

/-- `guess_local_rank` from `runtime.cpp`: the first of
`FLUX_TASK_LOCAL_ID`, `SLURM_LOCALID`, `OMPI_COMM_WORLD_LOCAL_RANK`,
`MV2_COMM_WORLD_LOCAL_RANK`, `MPI_LOCALRANKID` that is set, parsed with
`atoi`; -1 when none is set. -/
def guess_local_rank (env : Env) : Int :=
  let e := env "FLUX_TASK_LOCAL_ID"
  let e := e <|> env "SLURM_LOCALID"
  let e := e <|> env "OMPI_COMM_WORLD_LOCAL_RANK"
  let e := e <|> env "MV2_COMM_WORLD_LOCAL_RANK"
  let e := e <|> env "MPI_LOCALRANKID"
  match e with
  | some v => atoi v
  | none => -1

/-- `guess_local_size` from `runtime.cpp`: when both `FLUX_JOB_SIZE` and
`FLUX_JOB_NNODES` are set, `(atoi size + atoi nnodes - 1) / atoi nnodes`
with C truncating division; otherwise the first of `SLURM_NTASKS_PER_NODE`,
`OMPI_COMM_WORLD_LOCAL_SIZE`, `MV2_COMM_WORLD_LOCAL_SIZE`, `MPI_LOCALNRANKS`
that is set, parsed with `atoi`; -1 when none is set. -/
def guess_local_size (env : Env) : Int :=
  let fallback :=
    let e := env "SLURM_NTASKS_PER_NODE"
    let e := e <|> env "OMPI_COMM_WORLD_LOCAL_SIZE"
    let e := e <|> env "MV2_COMM_WORLD_LOCAL_SIZE"
    let e := e <|> env "MPI_LOCALNRANKS"
    match e with
    | some v => atoi v
    | none => -1
  match env "FLUX_JOB_SIZE", env "FLUX_JOB_NNODES" with
  | some flux_size, some nnodes =>
    Int.tdiv (atoi flux_size + atoi nnodes - 1) (atoi nnodes)
  | _, _ => fallback

/-- `check_bool_cstr` from `runtime.cpp`: unset is false, the empty string is
false, a string whose first character is '0' is false, everything else is
true. -/
def check_bool_cstr : Option String → Bool
  | none => false
  | some s =>
    match s.data with
    | [] => false
    | c :: _ => c != '0'

/-- `force_device_zero` from `runtime.cpp`. -/
def force_device_zero (env : Env) : Bool :=
  check_bool_cstr (env "H2_SELECT_DEVICE_0")

/-- `force_round_robin` from `runtime.cpp`. -/
def force_round_robin (env : Env) : Bool :=
  check_bool_cstr (env "H2_SELECT_DEVICE_RR")

/-- Log messages emitted by the runtime layer, abstracting the formatted
strings passed to the logging facade. -/
inductive LogMsg
  | initializingRuntime
  | foundDevices (n : Int)
  | settingDevice (id : Int)
  | alreadyInitialized (id : Int)
  | gpuInfo (id : Int)
  | warnNoRank
  | warnNoSize
  | errorOversubscribed
deriving DecidableEq, Repr

/-- `get_reasonable_default_gpu_id` from `runtime.cpp`, with `ngpus` the
value `h2::gpu::num_gpus()` reports. Returns the chosen device id together
with the log messages the routine emits; `none` models the fatal `error`
path (log the oversubscription error and `std::terminate`). -/
def get_reasonable_default_gpu_id (env : Env) (ngpus : Int) :
    Option Int × List LogMsg :=
  if force_device_zero env then (some 0, [])
  else
    let lrank := guess_local_rank env
    let lsize := guess_local_size env
    if lrank < 0 then (some 0, [LogMsg.warnNoRank])
    else if lsize < 0 then (some 0, [LogMsg.warnNoSize])
    else if force_round_robin env then (some (Int.tmod lrank ngpus), [])
    else if lsize ≤ ngpus then (some lrank, [])
    else (none, [LogMsg.errorOversubscribed])

/-- The runtime's process-wide state: the `initialized_` flag, the device the
process is currently bound to, and the log emitted so far. -/
structure RuntimeState where
  initialized_ : Bool
  current_gpu : Int
  log : List LogMsg
deriving DecidableEq, Repr

/-- `h2::gpu::set_gpu` from `runtime.cpp`: log, then bind the device. -/
def set_gpu (id : Int) (s : RuntimeState) : RuntimeState :=
  { s with log := s.log ++ [LogMsg.settingDevice id], current_gpu := id }

/-- `log_gpu_info` from `runtime.cpp`: log the identity of the given
device (here always called on the current device). -/
def log_gpu_info (s : RuntimeState) : RuntimeState :=
  { s with log := s.log ++ [LogMsg.gpuInfo s.current_gpu] }

/-- `h2::gpu::init_runtime` from `runtime.cpp`. When not yet initialized:
log, initialize the driver, log the device count, run the device-binding
algorithm and bind its result, set the flag; when already initialized: only
log. Either way, finish by logging the current device's identity. `none`
models process termination via the fatal binding error. -/
def init_runtime (env : Env) (ngpus : Int) (s : RuntimeState) :
    Option RuntimeState :=
  if !s.initialized_ then
    match get_reasonable_default_gpu_id env ngpus with
    | (some id, warns) =>
      let s1 : RuntimeState :=
        { s with
          log := s.log ++ [LogMsg.initializingRuntime, LogMsg.foundDevices ngpus]
                 ++ warns }
      let s2 := set_gpu id s1
      some (log_gpu_info { s2 with initialized_ := true })
    | (none, _) => none
  else
    some (log_gpu_info
      { s with log := s.log ++ [LogMsg.alreadyInitialized s.current_gpu] })

/-- Number of device bindings (`settingDevice` messages) recorded in a
log. -/
def count_set_device : List LogMsg → Nat
  | [] => 0
  | LogMsg.settingDevice _ :: rest => count_set_device rest + 1
  | _ :: rest => count_set_device rest

/-
Tensor layer. The CPU specialization `Tensor<T, Device::CPU>` is in
`tensor_cpu.hpp`. Its supporting declarations (`BaseTensor`, the tuple
types, `StridedMemory`, `are_strides_contiguous`, `get_range_shape`,
`filter_by_trivial`) live in headers that are not part of the scanned
source, so those parts are modelled from the spec (sections 3, 4.1-4.3), as
marked on each definition. Tuples are modelled as lists; a raw pointer into
a buffer is modelled as the pair of the buffer and an element offset.
-/

/-- Modelled from the spec: the dimension-type tags classifying each
dimension's semantic role ("e.g., sample, channel, spatial"); purely
descriptive, never affects memory layout. `Any` is the neutral tag used
when padding a dimension-type tuple. -/
inductive DimensionType
  | Any
  | Sample
  | Channel
  | Spatial
deriving DecidableEq, Repr, Inhabited

/-- `ViewType` from the data model: `None` marks an owner; `Mutable` and
`Const` mark views with the given access level. -/
inductive ViewType
  | None
  | Mutable
  | Const
deriving DecidableEq, Repr

/-- Modelled from the spec: one entry of a `CoordTuple` — select the full
extent (`ALL`), a contiguous sub-range `[lo, hi)`, or a single index (which
collapses, i.e. drops, that dimension in the resulting view). -/
inductive Coord
  | all
  | range (lo hi : Nat)
  | single (i : Nat)
deriving DecidableEq, Repr

/-- Modelled from the spec (4.1): `set_size` on an index tuple truncates or
pads; padding uses the neutral default entry. -/
def set_size {β : Type} [Inhabited β] (l : List β) (n : Nat) : List β :=
  l.take n ++ List.replicate (n - l.length) default

/-- Number of elements a shape holds: the product of its extents. -/
def prodShape (shape : List Nat) : Nat := shape.foldr (· * ·) 1

/-- Modelled from the spec (4.2): the default row-major contiguous strides
for a shape — last dimension stride 1, each preceding stride equal to the
next dimension's extent times the next dimension's stride. -/
def defaultStrides : List Nat → List Nat
  | [] => []
  | _ :: rest => prodShape rest :: defaultStrides rest

/-- Modelled from the spec (4.2): `are_strides_contiguous` is true iff the
strides equal the default contiguous strides for the shape. -/
def are_strides_contiguous (shape : List Nat) (strides : List Nat) : Bool :=
  strides == defaultStrides shape

/-- `StridedMemory<T, Device::CPU>`, modelled from the spec (3, 4.2): a
buffer (owned or aliased), per-dimension strides, and a base offset into
the buffer. -/
structure StridedMemory (α : Type) where
  buffer : List α
  strides : List Nat
  offset : Nat
deriving Repr, DecidableEq

instance {α : Type} : Inhabited (StridedMemory α) := ⟨⟨[], [], 0⟩⟩

/-- Modelled from the spec (4.2): constructing a `StridedMemory` from a
shape allocates a buffer of `product(shape)` elements (contents
unspecified; modelled as the default element) with the default contiguous
strides. -/
def StridedMemory.fromShape {α : Type} [Inhabited α] (shape : List Nat) :
    StridedMemory α :=
  ⟨List.replicate (prodShape shape) default, defaultStrides shape, 0⟩

/-- The starting index a coordinate entry selects in its dimension. -/
def coordLo : Coord → Nat
  | Coord.all => 0
  | Coord.range lo _ => lo
  | Coord.single i => i

/-- Modelled from the spec (4.2): the extra base offset of a sub-view,
`Σ range.lo[i] * parent.strides[i]`. -/
def viewOffset : List Coord → List Nat → Nat
  | c :: cs, st :: sts => coordLo c * st + viewOffset cs sts
  | _, _ => 0

/-- Modelled from the spec (4.2): a sub-view reuses the parent's strides for
retained dimensions and drops the strides of collapsed dimensions. -/
def viewStrides : List Coord → List Nat → List Nat
  | Coord.single _ :: cs, _ :: sts => viewStrides cs sts
  | _ :: cs, st :: sts => st :: viewStrides cs sts
  | _, _ => []

/-- Modelled from the spec (4.2): constructing a `StridedMemory` as a
sub-view of another: same buffer, adjusted offset, filtered strides. -/
def StridedMemory.subview {α : Type} (mem : StridedMemory α)
    (coords : List Coord) : StridedMemory α :=
  ⟨mem.buffer, viewStrides coords mem.strides,
   mem.offset + viewOffset coords mem.strides⟩

/-- Modelled from the spec (4.3): `get_range_shape` recomputes the shape a
`CoordTuple` selects — full extent for `ALL`, `hi - lo` for a range,
dropped for a collapsed dimension. -/
def get_range_shape : List Coord → List Nat → List Nat
  | Coord.all :: cs, d :: ds => d :: get_range_shape cs ds
  | Coord.range lo hi :: cs, _ :: ds => (hi - lo) :: get_range_shape cs ds
  | Coord.single _ :: cs, _ :: ds => get_range_shape cs ds
  | _, _ => []

/-- Modelled from the spec (4.3): `filter_by_trivial` drops the
dimension-type entries of dimensions a `CoordTuple` collapses. -/
def filter_by_trivial {β : Type} : List Coord → List β → List β
  | Coord.single _ :: cs, _ :: ds => filter_by_trivial cs ds
  | _ :: cs, d :: ds => d :: filter_by_trivial cs ds
  | _, _ => []

/-- `Tensor<T, Device::CPU>` from `tensor_cpu.hpp`: shape, dimension types
and view type (the `BaseTensor` part, modelled from the spec), plus the
`tensor_memory` member. -/
structure Tensor (α : Type) where
  tensor_shape : List Nat
  tensor_dim_types : List DimensionType
  tensor_view_type : ViewType
  tensor_memory : StridedMemory α
deriving Repr, DecidableEq

/-- Modelled from the spec (3): a tensor is a view iff its view type is not
`None`. -/
def Tensor.is_view {α : Type} (t : Tensor α) : Bool :=
  t.tensor_view_type != ViewType.None

/-- The `Tensor(shape_, dim_types_)` constructor from `tensor_cpu.hpp`: an
owning tensor allocating backing memory for the shape. -/
def Tensor.ofShape {α : Type} [Inhabited α] (shape : List Nat)
    (dim_types : List DimensionType) : Tensor α :=
  ⟨shape, dim_types, ViewType.None, StridedMemory.fromShape shape⟩

/-- `Tensor::empty` from `tensor_cpu.hpp`: reset the memory to a default
`StridedMemory`, the shape and dimension types to rank 0, and demote a view
to `ViewType::None`. -/
def Tensor.empty {α : Type} (t : Tensor α) : Tensor α :=
  { t with
    tensor_memory := ⟨[], [], 0⟩,
    tensor_shape := [],
    tensor_dim_types := [],
    tensor_view_type :=
      if t.is_view then ViewType.None else t.tensor_view_type }

/-- The shape-only `Tensor::resize` overload from `tensor_cpu.hpp`: fails on
a view, fails when the new rank exceeds the current rank, otherwise
reallocates fresh memory for the new shape and truncates the dimension
types via `set_size`. -/
def Tensor.resize {α : Type} [Inhabited α] (t : Tensor α)
    (new_shape : List Nat) : Except String (Tensor α) :=
  if t.is_view then Except.error "Cannot resize a view"
  else if new_shape.length > t.tensor_shape.length then
    Except.error "Must provide dimension types to resize larger"
  else
    Except.ok
      { t with
        tensor_memory := StridedMemory.fromShape new_shape,
        tensor_shape := new_shape,
        tensor_dim_types := set_size t.tensor_dim_types new_shape.length }

/-- The shape-and-dimension-types `Tensor::resize` overload from
`tensor_cpu.hpp`: fails on a view, otherwise reallocates fresh memory for
the new shape and installs the given dimension types. -/
def Tensor.resizeWithTypes {α : Type} [Inhabited α] (t : Tensor α)
    (new_shape : List Nat) (new_dim_types : List DimensionType) :
    Except String (Tensor α) :=
  if t.is_view then Except.error "Cannot resize a view"
  else
    Except.ok
      { t with
        tensor_memory := StridedMemory.fromShape new_shape,
        tensor_shape := new_shape,
        tensor_dim_types := new_dim_types }

/-- Non-const `Tensor::data` from `tensor_cpu.hpp`: fails on a const view,
otherwise returns the (mutable) pointer to the buffer, modelled as the pair
of the buffer and the base offset. -/
def Tensor.data {α : Type} (t : Tensor α) : Except String (List α × Nat) :=
  if t.tensor_view_type = ViewType.Const then
    Except.error "Cannot access non-const buffer of const view"
  else Except.ok (t.tensor_memory.buffer, t.tensor_memory.offset)

/-- `Tensor::const_data` from `tensor_cpu.hpp`: always returns the read-only
pointer to the buffer; it cannot fail on any tensor. -/
def Tensor.const_data {α : Type} (t : Tensor α) : List α × Nat :=
  (t.tensor_memory.buffer, t.tensor_memory.offset)

/-- `Tensor::is_contiguous` from `tensor_cpu.hpp`: delegates to
`are_strides_contiguous` on the tensor's shape and strides. -/
def Tensor.is_contiguous {α : Type} (t : Tensor α) : Bool :=
  are_strides_contiguous t.tensor_shape t.tensor_memory.strides

/-- The coordinate-taking `Tensor::view` from `tensor_cpu.hpp`: a new tensor
with recomputed shape, filtered dimension types, `ViewType::Mutable`, and a
sub-view of the memory. -/
def Tensor.view {α : Type} (t : Tensor α) (coords : List Coord) : Tensor α :=
  ⟨get_range_shape coords t.tensor_shape,
   filter_by_trivial coords t.tensor_dim_types,
   ViewType.Mutable,
   t.tensor_memory.subview coords⟩

/-- The no-argument `Tensor::view` from `tensor_cpu.hpp`: a view through a
full-range `CoordTuple` (one `ALL` per dimension). -/
def Tensor.view_full {α : Type} (t : Tensor α) : Tensor α :=
  t.view (List.replicate t.tensor_shape.length Coord.all)

/-- The coordinate-taking `Tensor::const_view` from `tensor_cpu.hpp`: like
`view` but with `ViewType::Const`. -/
def Tensor.const_view {α : Type} (t : Tensor α) (coords : List Coord) :
    Tensor α :=
  ⟨get_range_shape coords t.tensor_shape,
   filter_by_trivial coords t.tensor_dim_types,
   ViewType.Const,
   t.tensor_memory.subview coords⟩

/-- `Tensor::contiguous` from `tensor_cpu.hpp`: a full view when already
contiguous, otherwise the "not implemented" failure. -/
def Tensor.contiguous {α : Type} (t : Tensor α) : Except String (Tensor α) :=
  if t.is_contiguous then Except.ok t.view_full
  else Except.error "contiguous() not implemented"

/-- `Tensor::unview` from `tensor_cpu.hpp`: asserts (debug-only) that the
tensor is a view, then calls `empty`. -/
def Tensor.unview {α : Type} (t : Tensor α) : Tensor α := t.empty

/-- The first variable of a list that is set in the environment, and its
value. -/
def first_set (env : Env) : List String → Option String
  | [] => none
  | v :: vs =>
    match env v with
    | some s => some s
    | none => first_set env vs

/-
Concrete inputs used to instantiate the theorems below.
-/

/-- Environment with only the round-robin flag and an Open MPI local rank
set. -/
def env_rr_only : Env := fun name =>
  if name = "H2_SELECT_DEVICE_RR" then some "1"
  else if name = "OMPI_COMM_WORLD_LOCAL_RANK" then some "5"
  else none

/-- Environment with the round-robin flag, an Open MPI local rank, and an
Open MPI local size set. -/
def env_rr_sized : Env := fun name =>
  if name = "H2_SELECT_DEVICE_RR" then some "1"
  else if name = "OMPI_COMM_WORLD_LOCAL_RANK" then some "5"
  else if name = "OMPI_COMM_WORLD_LOCAL_SIZE" then some "4"
  else none

/-- Environment with a Slurm local rank of 2 and a Slurm local size of 4. -/
def env_slurm : Env := fun name =>
  if name = "SLURM_LOCALID" then some "2"
  else if name = "SLURM_NTASKS_PER_NODE" then some "4"
  else none

/-- Environment forcing device 0 while also setting the round-robin flag
and Slurm rank/size variables. -/
def env_dev0 : Env := fun name =>
  if name = "H2_SELECT_DEVICE_0" then some "1"
  else if name = "H2_SELECT_DEVICE_RR" then some "1"
  else if name = "SLURM_LOCALID" then some "3"
  else if name = "SLURM_NTASKS_PER_NODE" then some "8"
  else none

/-- Environment with a flux job of size 7 over 2 nodes. -/
def env_flux : Env := fun name =>
  if name = "FLUX_JOB_SIZE" then some "7"
  else if name = "FLUX_JOB_NNODES" then some "2"
  else none

/-- Environment with no variable set. -/
def env_unset : Env := fun _ => none

/-- An owning 2 x 3 tensor. -/
def owner23 : Tensor Int :=
  Tensor.ofShape [2, 3] [DimensionType.Sample, DimensionType.Channel]

/-- An owning rank-3 tensor with distinct dimension types. -/
def owner234 : Tensor Int :=
  Tensor.ofShape [2, 3, 4]
    [DimensionType.Sample, DimensionType.Channel, DimensionType.Spatial]

/-- A mutable full view of `owner23`. -/
def view23 : Tensor Int := owner23.view_full

/-- A const view of `owner23`. -/
def cview23 : Tensor Int :=
  owner23.const_view (List.replicate 2 Coord.all)

/-- A non-contiguous tensor: a single dimension of extent 2 walked with
stride 2 over a 4-element buffer. -/
def noncontig : Tensor Int :=
  ⟨[2], [DimensionType.Any], ViewType.None, ⟨[0, 0, 0, 0], [2], 0⟩⟩

/-- An uninitialized runtime state with an empty log. -/
def s_start : RuntimeState := ⟨false, 0, []⟩

/-- The runtime state after the first `init_runtime` call in an empty
environment with one visible device: initialized, bound to device 0, with
the corresponding log. -/
def s_first : RuntimeState :=
  ⟨true, 0,
   [LogMsg.initializingRuntime, LogMsg.foundDevices 1, LogMsg.warnNoRank,
    LogMsg.settingDevice 0, LogMsg.gpuInfo 0]⟩

/-
Helper lemmas shared by the claim theorems.
-/

theorem count_set_device_append (l₁ l₂ : List LogMsg) :
    count_set_device (l₁ ++ l₂) = count_set_device l₁ + count_set_device l₂ := by
  induction l₁ with
  | nil => simp [count_set_device]
  | cons x xs ih =>
    cases x
    all_goals simp [count_set_device, ih]
    all_goals omega

theorem count_set_device_warns (env : Env) (ngpus : Int) :
    count_set_device (get_reasonable_default_gpu_id env ngpus).2 = 0 := by
  simp only [get_reasonable_default_gpu_id]
  split_ifs <;> rfl

theorem getLast?_append_one {β : Type} (l : List β) (a : β) :
    (l ++ [a]).getLast? = some a := by
  induction l with
  | nil => rfl
  | cons x xs ih =>
    cases xs with
    | nil => rfl
    | cons y ys =>
      rw [List.cons_append, List.cons_append, List.getLast?_cons_cons]
      exact ih

theorem get_range_shape_all (shape : List Nat) :
    get_range_shape (List.replicate shape.length Coord.all) shape = shape := by
  induction shape with
  | nil => rfl
  | cons d ds ih => simp [List.replicate, get_range_shape, ih]

theorem filter_by_trivial_all {β : Type} (n : Nat) (l : List β) :
    filter_by_trivial (List.replicate n Coord.all) l = l.take n := by
  induction n generalizing l with
  | zero => simp [filter_by_trivial]
  | succ m ih =>
    cases l with
    | nil => simp [List.replicate, filter_by_trivial]
    | cons x xs => simp [List.replicate, filter_by_trivial, ih]

theorem viewStrides_all (n : Nat) (st : List Nat) :
    viewStrides (List.replicate n Coord.all) st = st.take n := by
  induction n generalizing st with
  | zero => simp [viewStrides]
  | succ m ih =>
    cases st with
    | nil => simp [List.replicate, viewStrides]
    | cons x xs => simp [List.replicate, viewStrides, ih]

theorem viewOffset_all (n : Nat) (st : List Nat) :
    viewOffset (List.replicate n Coord.all) st = 0 := by
  induction n generalizing st with
  | zero => cases st <;> rfl
  | succ m ih =>
    cases st with
    | nil => rfl
    | cons x xs => simp [List.replicate, viewOffset, coordLo, ih]

theorem first_set_eq_orelse (env : Env) (a b c d : String) :
    first_set env [a, b, c, d] =
      (((env a <|> env b) <|> env c) <|> env d) := by
  simp only [first_set]
  cases env a <;> cases env b <;> cases env c <;> cases env d <;> rfl

theorem set_size_of_le {β : Type} [Inhabited β] (l : List β) (n : Nat)
    (h : n ≤ l.length) : set_size l n = l.take n := by
  simp [set_size, Nat.sub_eq_zero_of_le h]

/-
Claim theorems.
-/

/-- Claim C2 (confirmed): whenever `H2_SELECT_DEVICE_0` holds a truthy
string, the binding algorithm returns device 0 immediately (no warnings,
no other variable consulted), regardless of every other environment
variable — including `H2_SELECT_DEVICE_RR` — and of the device count. -/
theorem c2_force_device_zero_wins (env : Env) (ngpus : Int)
    (h : check_bool_cstr (env "H2_SELECT_DEVICE_0") = true) :
    get_reasonable_default_gpu_id env ngpus = (some 0, []) := by
  unfold get_reasonable_default_gpu_id
  rw [if_pos (show force_device_zero env = true from h)]

/-- Witness for C2: an environment with `H2_SELECT_DEVICE_0=1`,
`H2_SELECT_DEVICE_RR=1`, `SLURM_LOCALID=3`, `SLURM_NTASKS_PER_NODE=8` and
2 visible devices still binds device 0. -/
theorem c2_force_device_zero_wins_witness :
    check_bool_cstr (env_dev0 "H2_SELECT_DEVICE_0") = true ∧
    get_reasonable_default_gpu_id env_dev0 2 = (some 0, []) :=
  ⟨by decide, c2_force_device_zero_wins env_dev0 2 (by decide)⟩

/-- Claim C1 counterexample: with `H2_SELECT_DEVICE_RR=1`,
`OMPI_COMM_WORLD_LOCAL_RANK=5`, 4 visible devices, and no other
binding-related variable set, the algorithm cannot determine the local
size, so it warns and binds device 0 — not device 1 = 5 mod 4 as the claim
states. -/
theorem c1_rr_counterexample :
    get_reasonable_default_gpu_id env_rr_only 4 =
      (some 0, [LogMsg.warnNoSize]) ∧
    (get_reasonable_default_gpu_id env_rr_only 4).1 ≠ some 1 := by
  constructor
  · decide
  · decide

/-- Claim C1 as amended (proved): when `H2_SELECT_DEVICE_0` is not truthy,
`H2_SELECT_DEVICE_RR` is truthy, the local rank parses to 5, and a local
size is also determinable (parses to a nonnegative value), 4 visible
devices make the algorithm bind device 1 = 5 mod 4. -/
theorem c1_rr_amended (env : Env)
    (h0 : force_device_zero env = false)
    (hrr : force_round_robin env = true)
    (hr : guess_local_rank env = 5)
    (hs : 0 ≤ guess_local_size env) :
    get_reasonable_default_gpu_id env 4 = (some 1, []) := by
  unfold get_reasonable_default_gpu_id
  rw [if_neg (by simp [h0])]
  simp only [hr]
  rw [if_neg (by norm_num), if_neg (not_lt.2 hs), if_pos hrr]
  decide

/-- Witness for the amended C1: adding `OMPI_COMM_WORLD_LOCAL_SIZE=4` to the
counterexample environment makes the algorithm bind device 1. -/
theorem c1_rr_amended_witness :
    force_device_zero env_rr_sized = false ∧
    force_round_robin env_rr_sized = true ∧
    guess_local_rank env_rr_sized = 5 ∧
    0 ≤ guess_local_size env_rr_sized ∧
    get_reasonable_default_gpu_id env_rr_sized 4 = (some 1, []) :=
  ⟨by decide, by decide, by decide, by decide,
   c1_rr_amended env_rr_sized (by decide) (by decide) (by decide) (by decide)⟩

/-- Claim C3 (confirmed): with no override flag set and both local rank and
local size determinable (nonnegative), the algorithm binds device
`local_rank` when `local_size <= ngpus`, and takes the fatal
oversubscription error path (modelled as `none`) when
`local_size > ngpus`. -/
theorem c3_direct_map_or_fatal (env : Env) (ngpus : Int)
    (h0 : force_device_zero env = false)
    (hrr : force_round_robin env = false)
    (hr : 0 ≤ guess_local_rank env)
    (hs : 0 ≤ guess_local_size env) :
    (guess_local_size env ≤ ngpus →
      get_reasonable_default_gpu_id env ngpus =
        (some (guess_local_rank env), [])) ∧
    (ngpus < guess_local_size env →
      get_reasonable_default_gpu_id env ngpus =
        (none, [LogMsg.errorOversubscribed])) := by
  constructor <;> intro hcmp <;>
  · unfold get_reasonable_default_gpu_id
    rw [if_neg (by simp [h0])]
    simp only
    rw [if_neg (not_lt.2 hr), if_neg (not_lt.2 hs), if_neg (by simp [hrr])]
    first
      | rw [if_pos hcmp]
      | rw [if_neg (not_le.2 hcmp)]

/-- Witness for C3: `SLURM_LOCALID=2`, `SLURM_NTASKS_PER_NODE=4` binds
device 2 with 4 visible devices and hits the fatal oversubscription path
with 2 visible devices. -/
theorem c3_direct_map_or_fatal_witness :
    get_reasonable_default_gpu_id env_slurm 4 = (some 2, []) ∧
    get_reasonable_default_gpu_id env_slurm 2 =
      (none, [LogMsg.errorOversubscribed]) := by
  constructor
  · have h := (c3_direct_map_or_fatal env_slurm 4 (by decide) (by decide)
      (by decide) (by decide)).1 (by decide)
    have hr : guess_local_rank env_slurm = 2 := by decide
    rwa [hr] at h
  · exact (c3_direct_map_or_fatal env_slurm 2 (by decide) (by decide)
      (by decide) (by decide)).2 (by decide)

/-- Claim C9 (confirmed): when `FLUX_JOB_SIZE` and `FLUX_JOB_NNODES` are
both set with positive parsed values, the local size is
`(size + nnodes - 1) / nnodes` in C truncating integer division, which is
exactly the ceiling of `size / nnodes` (characterized by
`size <= q * nnodes < size + nnodes`); otherwise the MPI size variables
are consulted in the fixed order `SLURM_NTASKS_PER_NODE`,
`OMPI_COMM_WORLD_LOCAL_SIZE`, `MV2_COMM_WORLD_LOCAL_SIZE`,
`MPI_LOCALNRANKS`. -/
theorem c9_local_size_flux_ceil (env : Env) :
    (∀ sv tv, env "FLUX_JOB_SIZE" = some sv →
       env "FLUX_JOB_NNODES" = some tv →
       0 < atoi sv → 0 < atoi tv →
       guess_local_size env = Int.tdiv (atoi sv + atoi tv - 1) (atoi tv) ∧
       atoi sv ≤ Int.tdiv (atoi sv + atoi tv - 1) (atoi tv) * atoi tv ∧
       Int.tdiv (atoi sv + atoi tv - 1) (atoi tv) * atoi tv <
         atoi sv + atoi tv) ∧
    ((env "FLUX_JOB_SIZE" = none ∨ env "FLUX_JOB_NNODES" = none) →
       guess_local_size env =
         match first_set env
             ["SLURM_NTASKS_PER_NODE", "OMPI_COMM_WORLD_LOCAL_SIZE",
              "MV2_COMM_WORLD_LOCAL_SIZE", "MPI_LOCALNRANKS"] with
         | some v => atoi v
         | none => -1) := by
  constructor
  · intro sv tv hfs hnn hspos htpos
    refine ⟨by unfold guess_local_size; rw [hfs, hnn], ?_, ?_⟩
    all_goals
      set a := atoi sv with ha
      set b := atoi tv with hb
      have hnn0 : (0 : Int) ≤ a + b - 1 := by omega
      have heq : Int.tdiv (a + b - 1) b = (a + b - 1) / b :=
        Int.tdiv_eq_ediv hnn0 (le_of_lt htpos)
      have hdm := Int.ediv_add_emod (a + b - 1) b
      have hm0 : 0 ≤ (a + b - 1) % b :=
        Int.emod_nonneg _ (by omega)
      have hmb : (a + b - 1) % b < b := Int.emod_lt_of_pos _ htpos
      rw [heq]
      nlinarith [hdm, hm0, hmb]
  · intro h
    have hfall :
        (let e := env "SLURM_NTASKS_PER_NODE"
         let e := e <|> env "OMPI_COMM_WORLD_LOCAL_SIZE"
         let e := e <|> env "MV2_COMM_WORLD_LOCAL_SIZE"
         let e := e <|> env "MPI_LOCALNRANKS"
         match e with
         | some v => atoi v
         | none => -1) =
        match first_set env
            ["SLURM_NTASKS_PER_NODE", "OMPI_COMM_WORLD_LOCAL_SIZE",
             "MV2_COMM_WORLD_LOCAL_SIZE", "MPI_LOCALNRANKS"] with
        | some v => atoi v
        | none => -1 := by
      rw [first_set_eq_orelse]
    rcases h with h | h
    · unfold guess_local_size
      rw [h]
      cases env "FLUX_JOB_NNODES" <;> exact hfall
    · unfold guess_local_size
      rw [h]
      cases env "FLUX_JOB_SIZE" <;> exact hfall

/-- Witness for C9: a flux job of size 7 over 2 nodes gives local size
4 = ceil(7/2); with no flux pair, `SLURM_NTASKS_PER_NODE=4` is used. -/
theorem c9_local_size_flux_ceil_witness :
    (guess_local_size env_flux = Int.tdiv (atoi "7" + atoi "2" - 1) (atoi "2") ∧
     atoi "7" ≤ Int.tdiv (atoi "7" + atoi "2" - 1) (atoi "2") * atoi "2" ∧
     Int.tdiv (atoi "7" + atoi "2" - 1) (atoi "2") * atoi "2" <
       atoi "7" + atoi "2") ∧
    guess_local_size env_slurm =
      match first_set env_slurm
          ["SLURM_NTASKS_PER_NODE", "OMPI_COMM_WORLD_LOCAL_SIZE",
           "MV2_COMM_WORLD_LOCAL_SIZE", "MPI_LOCALNRANKS"] with
      | some v => atoi v
      | none => -1 :=
  ⟨(c9_local_size_flux_ceil env_flux).1 "7" "2" (by decide) (by decide)
     (by decide) (by decide),
   (c9_local_size_flux_ceil env_slurm).2 (Or.inl (by decide))⟩

/-- Claim C4 (confirmed): starting from an uninitialized state, the first
`init_runtime` call binds a device exactly once (one `settingDevice` log
entry is added), sets the initialized flag, and ends its log with the
active device's identity; the second call returns the same state except
for two appended log entries (so the flag and the bound device are
unchanged and only logging happens), again ending with the active device's
identity. -/
theorem c4_init_runtime_idempotent (env : Env) (ngpus : Int)
    (s s1 : RuntimeState)
    (h0 : s.initialized_ = false)
    (h1 : init_runtime env ngpus s = some s1) :
    s1.initialized_ = true ∧
    count_set_device s1.log = count_set_device s.log + 1 ∧
    s1.log.getLast? = some (LogMsg.gpuInfo s1.current_gpu) ∧
    init_runtime env ngpus s1 =
      some { s1 with
             log := s1.log ++ [LogMsg.alreadyInitialized s1.current_gpu,
                               LogMsg.gpuInfo s1.current_gpu] } := by
  rcases hg : get_reasonable_default_gpu_id env ngpus with ⟨r, w⟩
  have hw : count_set_device w = 0 := by
    have h := count_set_device_warns env ngpus
    rw [hg] at h
    exact h
  rw [init_runtime, h0] at h1
  simp only [Bool.not_false, if_true, hg] at h1
  cases r with
  | none => simp at h1
  | some id =>
    simp only [Option.some.injEq] at h1
    subst h1
    refine ⟨rfl, ?_, ?_, ?_⟩
    · simp [log_gpu_info, set_gpu, count_set_device_append, hw,
            count_set_device]
    · simp only [log_gpu_info, set_gpu]
      exact getLast?_append_one _ _
    · rw [init_runtime]
      simp [log_gpu_info, set_gpu]

/-- Witness for C4: in an empty environment with one device, the first call
takes `s_start` to `s_first`, and the second call only appends the
already-initialized and device-identity log entries. -/
theorem c4_init_runtime_idempotent_witness :
    s_first.initialized_ = true ∧
    count_set_device s_first.log = count_set_device s_start.log + 1 ∧
    s_first.log.getLast? = some (LogMsg.gpuInfo s_first.current_gpu) ∧
    init_runtime env_unset 1 s_first =
      some { s_first with
             log := s_first.log ++
               [LogMsg.alreadyInitialized s_first.current_gpu,
                LogMsg.gpuInfo s_first.current_gpu] } :=
  c4_init_runtime_idempotent env_unset 1 s_start s_first rfl (by decide)

/-- Claim C5 (spec-modelled memory layer): both `resize` overloads fail on
any view; the shape-only overload additionally fails on an owner when the
new rank exceeds the current rank; otherwise resize on an owner succeeds
and reallocates a fresh buffer (`StridedMemory.fromShape`), making the
result contiguous with the default row-major strides of the new shape. -/
theorem c5_resize_views_and_owners (t : Tensor Int) (ns : List Nat)
    (nd : List DimensionType) :
    (t.is_view = true →
       t.resize ns = Except.error "Cannot resize a view" ∧
       t.resizeWithTypes ns nd = Except.error "Cannot resize a view") ∧
    (t.is_view = false → t.tensor_shape.length < ns.length →
       t.resize ns = Except.error "Must provide dimension types to resize larger") ∧
    (t.is_view = false → ns.length ≤ t.tensor_shape.length →
       ∃ t2, t.resize ns = Except.ok t2 ∧
         t2.tensor_memory = StridedMemory.fromShape ns ∧
         t2.tensor_memory.strides = defaultStrides ns ∧
         t2.is_contiguous = true) ∧
    (t.is_view = false →
       ∃ t2, t.resizeWithTypes ns nd = Except.ok t2 ∧
         t2.tensor_memory = StridedMemory.fromShape ns ∧
         t2.tensor_memory.strides = defaultStrides ns ∧
         t2.is_contiguous = true) := by
  refine ⟨fun hv => ?_, fun hv hlt => ?_, fun hv hle => ?_, fun hv => ?_⟩
  · constructor
    · simp [Tensor.resize, hv]
    · simp [Tensor.resizeWithTypes, hv]
  · simp [Tensor.resize, hv, hlt]
  · have hres : t.resize ns = Except.ok
        { t with tensor_memory := StridedMemory.fromShape ns,
                 tensor_shape := ns,
                 tensor_dim_types := set_size t.tensor_dim_types ns.length } := by
      unfold Tensor.resize
      rw [if_neg (by simp [hv]), if_neg (not_lt.2 hle)]
    exact ⟨_, hres, rfl, rfl,
      by simp [Tensor.is_contiguous, are_strides_contiguous,
               StridedMemory.fromShape]⟩
  · have hres : t.resizeWithTypes ns nd = Except.ok
        { t with tensor_memory := StridedMemory.fromShape ns,
                 tensor_shape := ns,
                 tensor_dim_types := nd } := by
      unfold Tensor.resizeWithTypes
      rw [if_neg (by simp [hv])]
    exact ⟨_, hres, rfl, rfl,
      by simp [Tensor.is_contiguous, are_strides_contiguous,
               StridedMemory.fromShape]⟩

/-- Witness for C5: resizing the view `view23` fails both ways; resizing
the owner `owner23` to a larger rank fails in the shape-only overload; the
two successful resizes on `owner23` are contiguous afterwards. -/
theorem c5_resize_views_and_owners_witness :
    (view23.resize [4] = Except.error "Cannot resize a view" ∧
     view23.resizeWithTypes [4] [DimensionType.Any] =
       Except.error "Cannot resize a view") ∧
    owner23.resize [2, 2, 2] =
      Except.error "Must provide dimension types to resize larger" ∧
    (∃ t2, owner23.resize [4] = Except.ok t2 ∧
       t2.tensor_memory = StridedMemory.fromShape [4] ∧
       t2.tensor_memory.strides = defaultStrides [4] ∧
       t2.is_contiguous = true) ∧
    (∃ t2, owner23.resizeWithTypes [2, 2, 2]
         [DimensionType.Any, DimensionType.Any, DimensionType.Any] =
         Except.ok t2 ∧
       t2.tensor_memory = StridedMemory.fromShape [2, 2, 2] ∧
       t2.tensor_memory.strides = defaultStrides [2, 2, 2] ∧
       t2.is_contiguous = true) :=
  ⟨(c5_resize_views_and_owners view23 [4] [DimensionType.Any]).1 (by decide),
   (c5_resize_views_and_owners owner23 [2, 2, 2] []).2.1 (by decide)
     (by decide),
   (c5_resize_views_and_owners owner23 [4] []).2.2.1 (by decide) (by decide),
   (c5_resize_views_and_owners owner23 [2, 2, 2]
      [DimensionType.Any, DimensionType.Any, DimensionType.Any]).2.2.2
     (by decide)⟩

/-- Claim C6 (confirmed): non-const `data` fails exactly on a const view
and otherwise returns the same (mutable) buffer pointer `const_data`
returns, while `const_data` is total — it succeeds on every tensor,
owner or view, const or mutable. -/
theorem c6_data_const_data (t : Tensor Int) :
    (t.tensor_view_type = ViewType.Const →
       t.data = Except.error "Cannot access non-const buffer of const view") ∧
    (t.tensor_view_type ≠ ViewType.Const →
       t.data = Except.ok t.const_data) ∧
    t.const_data = (t.tensor_memory.buffer, t.tensor_memory.offset) := by
  refine ⟨fun h => ?_, fun h => ?_, rfl⟩
  · simp [Tensor.data, h]
  · simp [Tensor.data, h, Tensor.const_data]

/-- Witness for C6: `data` fails on the const view `cview23` and succeeds
on the owner `owner23` and on the mutable view `view23`. -/
theorem c6_data_const_data_witness :
    cview23.data = Except.error "Cannot access non-const buffer of const view" ∧
    owner23.data = Except.ok owner23.const_data ∧
    view23.data = Except.ok view23.const_data :=
  ⟨(c6_data_const_data cview23).1 rfl,
   (c6_data_const_data owner23).2.1 (by decide),
   (c6_data_const_data view23).2.1 (by decide)⟩

/-- Claim C7 (confirmed, memory layer spec-modelled): on a contiguous
tensor, `contiguous` returns the full-range mutable view — same shape,
same dimension types (up to the rank), same buffer and same base offset,
so no data is copied or compacted; on a non-contiguous tensor it fails
with the "not implemented" message, which is distinct from the usage-error
messages. -/
theorem c7_contiguous_alias_or_unimplemented (t : Tensor Int) :
    (t.is_contiguous = true →
       t.contiguous = Except.ok t.view_full ∧
       t.view_full.tensor_shape = t.tensor_shape ∧
       t.view_full.tensor_dim_types =
         t.tensor_dim_types.take t.tensor_shape.length ∧
       t.view_full.tensor_view_type = ViewType.Mutable ∧
       t.view_full.tensor_memory.buffer = t.tensor_memory.buffer ∧
       t.view_full.tensor_memory.offset = t.tensor_memory.offset) ∧
    (t.is_contiguous = false →
       t.contiguous = Except.error "contiguous() not implemented") := by
  constructor
  · intro h
    refine ⟨by simp [Tensor.contiguous, h], ?_, ?_, rfl, rfl, ?_⟩
    · simp [Tensor.view_full, Tensor.view, get_range_shape_all]
    · simp [Tensor.view_full, Tensor.view, filter_by_trivial_all]
    · simp [Tensor.view_full, Tensor.view, StridedMemory.subview,
            viewOffset_all]
  · intro h
    simp [Tensor.contiguous, h]

/-- Witness for C7: the contiguous owner `owner23` gets a full view; the
non-contiguous `noncontig` gets the "not implemented" failure. -/
theorem c7_contiguous_alias_or_unimplemented_witness :
    owner23.contiguous = Except.ok owner23.view_full ∧
    noncontig.contiguous = Except.error "contiguous() not implemented" :=
  ⟨((c7_contiguous_alias_or_unimplemented owner23).1 (by decide)).1,
   (c7_contiguous_alias_or_unimplemented noncontig).2 (by decide)⟩

/-- Claim C8 (confirmed, memory layer spec-modelled): for every tensor `T`,
`T.view(full_range)` is a view aliasing `T`'s buffer, and its `unview`
yields the empty tensor: rank-0 shape and dimension types,
`ViewType::None`, and released (default) memory. In this pure embedding
`view_full` and `unview` are functions of the view alone and return new
values, so `T`'s shape, dimension types, view type, strides and buffer
contents are untouched by construction. -/
theorem c8_view_unview_roundtrip (t : Tensor Int) :
    t.view_full.is_view = true ∧
    t.view_full.tensor_memory.buffer = t.tensor_memory.buffer ∧
    t.view_full.unview.tensor_shape = [] ∧
    t.view_full.unview.tensor_dim_types = [] ∧
    t.view_full.unview.tensor_view_type = ViewType.None ∧
    t.view_full.unview.tensor_memory = (⟨[], [], 0⟩ : StridedMemory Int) :=
  ⟨rfl, rfl, rfl, rfl, rfl, rfl⟩

/-- Claim C10 (confirmed, tuple `set_size` spec-modelled): a successful
shape-only resize to a rank no larger than the current one truncates the
dimension-type tuple to the first `new_shape.size()` entries, so every
surviving dimension keeps its previous dimension type. -/
theorem c10_resize_truncates_dim_types (t : Tensor Int) (ns : List Nat)
    (hv : t.is_view = false)
    (hle : ns.length ≤ t.tensor_shape.length)
    (hd : t.tensor_dim_types.length = t.tensor_shape.length) :
    ∃ t2, t.resize ns = Except.ok t2 ∧
      t2.tensor_dim_types = t.tensor_dim_types.take ns.length ∧
      ∀ i : Nat, i < ns.length →
        t2.tensor_dim_types[i]? = t.tensor_dim_types[i]? := by
  have hres : t.resize ns = Except.ok
      { t with tensor_memory := StridedMemory.fromShape ns,
               tensor_shape := ns,
               tensor_dim_types := set_size t.tensor_dim_types ns.length } := by
    unfold Tensor.resize
    rw [if_neg (by simp [hv]), if_neg (not_lt.2 hle)]
  refine ⟨_, hres, ?_, ?_⟩
  · exact set_size_of_le _ _ (by omega)
  · intro i hi
    rw [set_size_of_le _ _ (by omega)]
    simp [List.getElem?_take, hi]

/-- Witness for C10: resizing the rank-3 owner `owner234` to the rank-2
shape `[5, 6]` keeps the first two dimension types. -/
theorem c10_resize_truncates_dim_types_witness :
    ∃ t2, owner234.resize [5, 6] = Except.ok t2 ∧
      t2.tensor_dim_types = owner234.tensor_dim_types.take 2 ∧
      ∀ i : Nat, i < ([5, 6] : List Nat).length →
        t2.tensor_dim_types[i]? = owner234.tensor_dim_types[i]? :=
  c10_resize_truncates_dim_types owner234 [5, 6] (by decide) (by decide)
    (by decide)

end H2

